import Mathlib

/-!
Shallow embedding of `open/protocols/stratum/sim/sim_primitives/stratum_v1/pool.py`
(Stratum V1 pool-side session handshake and job-notification logic).

The repository's `src/` contains only `pool.py`.  Its collaborators
(`sim_primitives.pool.MiningSession`/`Pool`, the `.messages` module, the job
registry and the connection processor base class) are not under `src/`; those
parts are modelled from the spec and are marked `Modelled from the spec:` in
their doc comments.  Everything in `PoolV1` and `MiningSessionV1` is translated
directly from the source.

Python dynamic-semantics note: in `visit_authorize` and `visit_submit` the
source evaluates `self.__mining_session()` — a *call* of the stored session
object.  A `MiningSessionV1` instance defines no `__call__` (and the spec's
Session data model has none), so that expression raises `TypeError` before
anything else in the handler runs; calling `None` raises `TypeError` as well.
The embedding makes these raises explicit via `PyError`.
-/

namespace StratumV1

/-- States of the V1 mining session state machine (`MiningSessionV1.States`). -/
inductive States where
  | INIT
  | CONFIGURED
  | AUTHORIZED
  | SUBSCRIBED
  | RUNNING
deriving DecidableEq, Repr

/-- Python `str(state)` rendering used in formatted trace/error strings. -/
def States.str : States → String
  | .INIT => "States.INIT"
  | .CONFIGURED => "States.CONFIGURED"
  | .AUTHORIZED => "States.AUTHORIZED"
  | .SUBSCRIBED => "States.SUBSCRIBED"
  | .RUNNING => "States.RUNNING"

/-- Modelled from the spec: the `.messages` module is not under `src/`.
Inbound `mining.authorize` request (`request_id, username, password`, §6). -/
structure Authorize where
  req_id : Nat
  username : String
  password : String
deriving DecidableEq, Repr

/-- Modelled from the spec: inbound `mining.subscribe` request (`request_id`). -/
structure Subscribe where
  req_id : Nat
deriving DecidableEq, Repr

/-- Modelled from the spec: inbound `mining.submit` request
(`request_id, job_id`, share fields opaque to this core). -/
structure Submit where
  req_id : Nat
  job_id : Nat
deriving DecidableEq, Repr

/-- Modelled from the spec: an unrecognized/malformed inbound message, carrying
its request id and its string rendering (what Python `format(msg)` yields). -/
structure UnknownMessage where
  req_id : Nat
  text : String
deriving DecidableEq, Repr

/-- Modelled from the spec: outbound message surface (§6).  `extranonce1` is a
byte string, modelled as a list of byte values; unpopulated placeholder fields
of `Notify` are `Option` values set to `none`. -/
inductive Msg where
  | SubscribeResponse (req_id : Nat) (subscription_ids : Option (List Nat))
      (extranonce1 : List Nat) (extranonce2_size : Nat)
  | OkResult (req_id : Nat)
  | ErrorResult (req_id : Nat) (code : Int) (message : String)
  | Notify (job_id : Nat) (prev_hash : Nat)
      (coin_base_1 coin_base_2 merkle_branch version bits : Option Nat)
      (time : Nat) (clean_jobs : Bool)
  | SetDifficulty (value : Nat)
deriving DecidableEq, Repr

/-- Python exceptions that the translated code can raise. -/
inductive PyError where
  | typeErrorNotCallable
  | attributeErrorNone (attr : String)
  | assertionError (msg : String)
deriving DecidableEq, Repr

/-- Modelled from the spec: a job owned by the (external) job registry —
`{id, difficulty_target, retired}` (§3). -/
structure Job where
  uid : Nat
  diff_target : Nat
  retired : Bool
deriving DecidableEq, Repr

/-- Modelled from the spec: the job registry held by the session (external
collaborator).  Jobs issued so far plus a fresh-uid counter. -/
structure JobRegistry where
  jobs : List Job
  next_uid : Nat
deriving DecidableEq, Repr

/-- Modelled from the spec: `retire_all()` marks every previously issued job of
the session retired (I3). -/
def JobRegistry.retire_all_jobs (r : JobRegistry) : JobRegistry :=
  { r with jobs := r.jobs.map (fun j => { j with retired := true }) }

/-- Modelled from the spec: `create_job(target) → job_id` — a new, non-retired
job parameterized by the session's current difficulty target always succeeds. -/
def JobRegistry.new_mining_job (r : JobRegistry) (diff_target : Nat) :
    Job × JobRegistry :=
  let job : Job := { uid := r.next_uid, diff_target := diff_target, retired := false }
  (job, { jobs := r.jobs ++ [job], next_uid := r.next_uid + 1 })

/-- V1 mining session (`MiningSessionV1`): handshake state, the append-only
authorize log, and (modelled from the spec, since the base `MiningSession` is
not under `src/`) the owned job registry and current difficulty/target. -/
structure MiningSessionV1 where
  state : States
  authorize_requests : List Authorize
  job_registry : JobRegistry
  curr_diff : Nat
  curr_target : Nat
deriving DecidableEq, Repr

/-- Translation of `MiningSessionV1.run`: calls `super().run()` (external job
activation, no session-field effect modelled per spec §4.1) and switches the
state to `RUNNING`. -/
def MiningSessionV1.run (s : MiningSessionV1) : MiningSessionV1 :=
  { s with state := States.RUNNING }

/-- Translation of `MiningSessionV1.append_authorize`: appends the request to
`authorize_requests`. -/
def MiningSessionV1.append_authorize (s : MiningSessionV1) (msg : Authorize) :
    MiningSessionV1 :=
  { s with authorize_requests := s.authorize_requests ++ [msg] }

/-- Modelled from the spec: the external `Pool` collaborator, restricted to
what `pool.py` reads — `extranonce2_size`, `prev_hash`, and the share
validation entry point behind `process_submit` (accept = `true`). -/
structure Pool where
  extranonce2_size : Nat
  prev_hash : Nat
  validate_submit : Nat → MiningSessionV1 → Bool

/-- Per-connection V1 message processor (`PoolV1`).  The owned session slot
`__mining_session` may be absent (`none`), modelling the missing-session fault
of spec §7; `env_now` is the scheduler clock read as `self.env.now`. -/
structure PoolV1 where
  pool : Pool
  __mining_session : Option MiningSessionV1
  env_now : Nat

/-- Translation of the `mining_session` property: asserts the owned session is
present and returns it, else raises `AssertionError`. -/
def PoolV1.mining_session (p : PoolV1) : Except PyError MiningSessionV1 :=
  match p.__mining_session with
  | none => .error (.assertionError "Message processor has no mining session!")
  | some s => .ok s

/-- Translation of `PoolV1.visit_subscribe`.  Reads the raw attribute
`self.__mining_session`; the first session access is `mining_session.state`
inside the trace-record format (raising `AttributeError` when the session is
`None`).  Each `_send_msg` is recorded together with the session state at the
moment of sending (for the temporal ordering around `run()`); the final
processor is returned on success. -/
def PoolV1.visit_subscribe (p : PoolV1) (msg : Subscribe) :
    List (States × Msg) × Except PyError PoolV1 :=
  match p.__mining_session with
  | none => ([], .error (.attributeErrorNone "state"))
  | some s =>
    if s.state = States.INIT ∨ s.state = States.AUTHORIZED then
      let s1 := { s with state := States.SUBSCRIBED }
      let resp := Msg.SubscribeResponse msg.req_id none (List.replicate 8 0)
        p.pool.extranonce2_size
      let s2 := s1.run
      ([(s1.state, resp)], .ok { p with __mining_session := some s2 })
    else
      ([(s.state,
         Msg.ErrorResult msg.req_id (-1)
           ("Subscribe not expected when in: " ++ s.state.str))],
       .ok p)

/-- Translation of `PoolV1.visit_authorize`.  The first statement evaluates
`self.__mining_session()` — a call of the stored session object (or of
`None`), which raises `TypeError` in either case before any append, trace
record or reply. -/
def PoolV1.visit_authorize (p : PoolV1) (msg : Authorize) :
    List Msg × Except PyError PoolV1 :=
  match p.__mining_session with
  | none => ([], .error .typeErrorNotCallable)
  | some _ => ([], .error .typeErrorNotCallable)

/-- Translation of `PoolV1.visit_submit`.  The first statement evaluates
`self.__mining_session()` — a call of the stored session object (or of
`None`), raising `TypeError` before the trace record and before
`pool.process_submit` can run either continuation. -/
def PoolV1.visit_submit (p : PoolV1) (msg : Submit) :
    List Msg × Except PyError PoolV1 :=
  match p.__mining_session with
  | none => ([], .error .typeErrorNotCallable)
  | some _ => ([], .error .typeErrorNotCallable)

/-- Translation of the private `PoolV1.__build_mining_notify`: via the asserting
`mining_session` property, optionally retires all jobs, creates one new job at
the session's current target, and builds the `Notify` message with placeholder
fields `none` and `time = env.now`. -/
def PoolV1.__build_mining_notify (p : PoolV1) (clean_jobs : Bool) :
    Except PyError (PoolV1 × Msg) :=
  match p.mining_session with
  | .error e => .error e
  | .ok session =>
    let reg0 := if clean_jobs then session.job_registry.retire_all_jobs
      else session.job_registry
    let jr := reg0.new_mining_job session.curr_target
    let session1 := { session with job_registry := jr.2 }
    .ok ({ p with __mining_session := some session1 },
      Msg.Notify jr.1.uid p.pool.prev_hash none none none none none
        p.env_now clean_jobs)

/-- Translation of `PoolV1.on_new_block`: sends the notification built with
`clean_jobs = true`. -/
def PoolV1.on_new_block (p : PoolV1) : List Msg × Except PyError PoolV1 :=
  match p.__build_mining_notify true with
  | .error e => ([], .error e)
  | .ok pm => ([pm.2], .ok pm.1)

/-- Translation of `PoolV1._on_invalid_message`: replies with `ErrorResult`
code `-2` whose message embeds the formatted offending message. -/
def PoolV1._on_invalid_message (p : PoolV1) (msg : UnknownMessage) :
    List Msg × Except PyError PoolV1 :=
  ([Msg.ErrorResult msg.req_id (-2) ("Unrecognized message: " ++ msg.text)],
   .ok p)

/-- Translation of `PoolV1._on_vardiff_change`: sends `SetDifficulty` with the
session's current difficulty, then sends the notification built with
`clean_jobs = false` (emitted messages before a raise are kept). -/
def PoolV1._on_vardiff_change (p : PoolV1) (session : MiningSessionV1) :
    List Msg × Except PyError PoolV1 :=
  let d := Msg.SetDifficulty session.curr_diff
  match p.__build_mining_notify false with
  | .error e => ([d], .error e)
  | .ok pm => ([d, pm.2], .ok pm.1)

/-! Concrete sample values used by witness theorems. -/

/-- Sample pool configuration: extranonce2 size 4, rejecting validator. -/
def poolA : Pool :=
  { extranonce2_size := 4, prev_hash := 99, validate_submit := fun _ _ => false }

/-- Sample job registry holding one outstanding (non-retired) job. -/
def regA : JobRegistry :=
  { jobs := [{ uid := 0, diff_target := 5, retired := false }], next_uid := 1 }

/-- Sample session in the `INIT` state. -/
def sessInit : MiningSessionV1 :=
  { state := States.INIT, authorize_requests := [], job_registry := regA,
    curr_diff := 1000, curr_target := 7 }

/-- Sample session in the `AUTHORIZED` state. -/
def sessAuth : MiningSessionV1 := { sessInit with state := States.AUTHORIZED }

/-- Sample session in the `RUNNING` state. -/
def sessRunning : MiningSessionV1 := { sessInit with state := States.RUNNING }

/-- Sample processor owning an `INIT` session. -/
def procInit : PoolV1 :=
  { pool := poolA, __mining_session := some sessInit, env_now := 10 }

/-- Sample processor owning an `AUTHORIZED` session. -/
def procAuth : PoolV1 := { procInit with __mining_session := some sessAuth }

/-- Sample processor owning a `RUNNING` session. -/
def procRunning : PoolV1 := { procInit with __mining_session := some sessRunning }

/-- Sample processor with an absent (None) session. -/
def procNone : PoolV1 := { procInit with __mining_session := none }

/-- Helper: retiring every job of a list leaves nothing unretired. -/
theorem filter_unretired_of_retire_all (l : List Job) :
    (l.map (fun j => { j with retired := true })).filter (fun j => !j.retired) = [] := by
  induction l with
  | nil => rfl
  | cons a t ih => simp [List.filter, ih]

/-- C1: (code-bug evidence) processing an Authorize message always raises
`TypeError` — the handler's first statement calls the stored session object —
so no request is appended and no `OkResult` is ever sent, for every processor
and every Authorize message. -/
theorem visit_authorize_always_raises (p : PoolV1) (msg : Authorize) :
    p.visit_authorize msg = ([], .error PyError.typeErrorNotCallable) := by
  unfold PoolV1.visit_authorize
  cases p.__mining_session <;> rfl

/-- C2: (code-bug evidence) processing a Submit message always raises
`TypeError` before `pool.process_submit` can invoke either continuation, so no
`ErrorResult` code `-3` is ever emitted — for every processor and every Submit
message, in particular when the pool's validator would reject the share. -/
theorem visit_submit_always_raises (p : PoolV1) (msg : Submit) :
    p.visit_submit msg = ([], .error PyError.typeErrorNotCallable) := by
  unfold PoolV1.visit_submit
  cases p.__mining_session <;> rfl

/-- C3: with the session in `INIT` or `AUTHORIZED`, subscribe succeeds: the
sole reply is a `SubscribeResponse` carrying the request id, no
subscription-id list, an extranonce1 of exactly 8 zero bytes and the pool's
configured extranonce2 size, and the session state ends at `RUNNING`. -/
theorem visit_subscribe_success (p : PoolV1) (s : MiningSessionV1)
    (msg : Subscribe) (h : p.__mining_session = some s)
    (h2 : s.state = States.INIT ∨ s.state = States.AUTHORIZED) :
    ∃ p1,
      p.visit_subscribe msg =
        ([(States.SUBSCRIBED,
           Msg.SubscribeResponse msg.req_id none (List.replicate 8 0)
             p.pool.extranonce2_size)], .ok p1) ∧
      ∃ s1, p1.__mining_session = some s1 ∧ s1.state = States.RUNNING := by
  simp only [PoolV1.visit_subscribe, h]
  rw [if_pos h2]
  exact ⟨_, rfl, _, rfl, rfl⟩

/-- C3 witness: fresh `INIT` session, Subscribe with id 1. -/
theorem visit_subscribe_success_witness :
    procInit.__mining_session = some sessInit ∧
    (sessInit.state = States.INIT ∨ sessInit.state = States.AUTHORIZED) ∧
    ∃ p1,
      procInit.visit_subscribe ⟨1⟩ =
        ([(States.SUBSCRIBED,
           Msg.SubscribeResponse 1 none (List.replicate 8 0)
             procInit.pool.extranonce2_size)], .ok p1) ∧
      ∃ s1, p1.__mining_session = some s1 ∧ s1.state = States.RUNNING :=
  ⟨rfl, Or.inl rfl,
   visit_subscribe_success procInit sessInit ⟨1⟩ rfl (Or.inl rfl)⟩

/-- C4: with the session in neither `INIT` nor `AUTHORIZED`, subscribe fails:
the sole reply is an `ErrorResult` code `-1` carrying the request id, and the
processor (hence the session state) is returned unchanged. -/
theorem visit_subscribe_illegal (p : PoolV1) (s : MiningSessionV1)
    (msg : Subscribe) (h : p.__mining_session = some s)
    (h2 : s.state ≠ States.INIT) (h3 : s.state ≠ States.AUTHORIZED) :
    p.visit_subscribe msg =
      ([(s.state,
         Msg.ErrorResult msg.req_id (-1)
           ("Subscribe not expected when in: " ++ s.state.str))], .ok p) := by
  simp only [PoolV1.visit_subscribe, h, if_neg (not_or.mpr ⟨h2, h3⟩)]

/-- C4 witness: session already `RUNNING`, Subscribe with id 2. -/
theorem visit_subscribe_illegal_witness :
    procRunning.__mining_session = some sessRunning ∧
    sessRunning.state ≠ States.INIT ∧ sessRunning.state ≠ States.AUTHORIZED ∧
    procRunning.visit_subscribe ⟨2⟩ =
      ([(sessRunning.state,
         Msg.ErrorResult 2 (-1)
           ("Subscribe not expected when in: " ++ sessRunning.state.str))],
       .ok procRunning) :=
  ⟨rfl, by decide, by decide,
   visit_subscribe_illegal procRunning sessRunning ⟨2⟩ rfl (by decide) (by decide)⟩

/-- C5: a difficulty-change trigger emits exactly two messages: first one
`SetDifficulty` carrying the session's current difficulty, then one `Notify`
with `clean_jobs = false`, in that order, with nothing else. -/
theorem on_vardiff_change_sequence (p : PoolV1) (s : MiningSessionV1)
    (h : p.__mining_session = some s) :
    ∃ job_id p1,
      p._on_vardiff_change s =
        ([Msg.SetDifficulty s.curr_diff,
          Msg.Notify job_id p.pool.prev_hash none none none none none
            p.env_now false], .ok p1) := by
  simp only [PoolV1._on_vardiff_change, PoolV1.__build_mining_notify,
    PoolV1.mining_session, h, JobRegistry.new_mining_job]
  exact ⟨_, _, rfl⟩

/-- C5 witness: difficulty change on the sample `INIT`-session processor. -/
theorem on_vardiff_change_sequence_witness :
    procInit.__mining_session = some sessInit ∧
    ∃ job_id p1,
      procInit._on_vardiff_change sessInit =
        ([Msg.SetDifficulty sessInit.curr_diff,
          Msg.Notify job_id procInit.pool.prev_hash none none none none none
            procInit.env_now false], .ok p1) :=
  ⟨rfl, on_vardiff_change_sequence procInit sessInit rfl⟩

/-- C6: building a work notification with `clean_jobs = true` retires every
previously issued job of the session (whatever their number), creates exactly
one new, non-retired job whose id the notification carries, leaving the
session's non-retired job count at exactly 1. -/
theorem build_mining_notify_clean_jobs (p : PoolV1) (s : MiningSessionV1)
    (h : p.__mining_session = some s) :
    ∃ p1 s1 job,
      p.__build_mining_notify true =
        .ok (p1, Msg.Notify job.uid p.pool.prev_hash none none none none none
          p.env_now true) ∧
      p1.__mining_session = some s1 ∧
      job.retired = false ∧
      s1.job_registry.jobs =
        s.job_registry.jobs.map (fun j => { j with retired := true }) ++ [job] ∧
      s1.job_registry.jobs.filter (fun j => !j.retired) = [job] ∧
      (s1.job_registry.jobs.filter (fun j => !j.retired)).length = 1 := by
  simp only [PoolV1.__build_mining_notify, PoolV1.mining_session, h,
    JobRegistry.retire_all_jobs, JobRegistry.new_mining_job]
  refine ⟨_, _, ⟨s.job_registry.next_uid, s.curr_target, false⟩,
    rfl, rfl, rfl, rfl, ?_, ?_⟩
  · simp [List.filter_append, filter_unretired_of_retire_all]
  · simp [List.filter_append, filter_unretired_of_retire_all]

/-- C6 witness: clean-jobs build on the sample processor holding one prior
job. -/
theorem build_mining_notify_clean_jobs_witness :
    procInit.__mining_session = some sessInit ∧
    ∃ p1 s1 job,
      procInit.__build_mining_notify true =
        .ok (p1, Msg.Notify job.uid procInit.pool.prev_hash none none none none
          none procInit.env_now true) ∧
      p1.__mining_session = some s1 ∧
      job.retired = false ∧
      s1.job_registry.jobs =
        sessInit.job_registry.jobs.map (fun j => { j with retired := true })
          ++ [job] ∧
      s1.job_registry.jobs.filter (fun j => !j.retired) = [job] ∧
      (s1.job_registry.jobs.filter (fun j => !j.retired)).length = 1 :=
  ⟨rfl, build_mining_notify_clean_jobs procInit sessInit rfl⟩

/-- C7: a new-chain-head event emits exactly one `Notify` with
`clean_jobs = true` and no `SetDifficulty` message. -/
theorem on_new_block_messages (p : PoolV1) (s : MiningSessionV1)
    (h : p.__mining_session = some s) :
    ∃ job_id p1,
      p.on_new_block =
        ([Msg.Notify job_id p.pool.prev_hash none none none none none
          p.env_now true], .ok p1) ∧
      ∀ m ∈ p.on_new_block.1, ∀ v, m ≠ Msg.SetDifficulty v := by
  simp only [PoolV1.on_new_block, PoolV1.__build_mining_notify,
    PoolV1.mining_session, h, JobRegistry.retire_all_jobs,
    JobRegistry.new_mining_job]
  exact ⟨_, _, rfl, by simp⟩

/-- C7 witness: new-chain-head on the sample processor. -/
theorem on_new_block_messages_witness :
    procInit.__mining_session = some sessInit ∧
    ∃ job_id p1,
      procInit.on_new_block =
        ([Msg.Notify job_id procInit.pool.prev_hash none none none none none
          procInit.env_now true], .ok p1) ∧
      ∀ m ∈ procInit.on_new_block.1, ∀ v, m ≠ Msg.SetDifficulty v :=
  ⟨rfl, on_new_block_messages procInit sessInit rfl⟩

/-- C8: an unrecognized inbound message yields exactly one `ErrorResult` with
code `-2` carrying the message's request id, whose message field embeds the
offending message's description, and the processor is unchanged. -/
theorem on_invalid_message_reply (p : PoolV1) (m : UnknownMessage) :
    p._on_invalid_message m =
      ([Msg.ErrorResult m.req_id (-2) ("Unrecognized message: " ++ m.text)],
       .ok p) ∧
    ∃ pre, "Unrecognized message: " ++ m.text = pre ++ m.text :=
  ⟨rfl, "Unrecognized message: ", rfl⟩

/-- C9: with the owned session absent, every session-touching handler fails
before producing any outbound message or mutating anything: subscribe raises
`AttributeError` on the first session access, authorize and submit raise
`TypeError` on their first statement, the new-block path and the
`mining_session` accessor raise `AssertionError`. -/
theorem handlers_refuse_without_session (p : PoolV1)
    (h : p.__mining_session = none) (sub : Subscribe) (au : Authorize)
    (subm : Submit) :
    p.visit_subscribe sub = ([], .error (PyError.attributeErrorNone "state")) ∧
    p.visit_authorize au = ([], .error PyError.typeErrorNotCallable) ∧
    p.visit_submit subm = ([], .error PyError.typeErrorNotCallable) ∧
    p.on_new_block =
      ([], .error (PyError.assertionError
        "Message processor has no mining session!")) ∧
    p.mining_session =
      .error (PyError.assertionError
        "Message processor has no mining session!") := by
  refine ⟨?_, ?_, ?_, ?_, ?_⟩ <;>
    simp only [PoolV1.visit_subscribe, PoolV1.visit_authorize,
      PoolV1.visit_submit, PoolV1.on_new_block, PoolV1.__build_mining_notify,
      PoolV1.mining_session, h]

/-- C9 witness: the sample processor with no session, on concrete messages. -/
theorem handlers_refuse_without_session_witness :
    procNone.__mining_session = none ∧
    (procNone.visit_subscribe ⟨7⟩ =
       ([], .error (PyError.attributeErrorNone "state")) ∧
     procNone.visit_authorize ⟨7, "u", "pw"⟩ =
       ([], .error PyError.typeErrorNotCallable) ∧
     procNone.visit_submit ⟨7, 0⟩ =
       ([], .error PyError.typeErrorNotCallable) ∧
     procNone.on_new_block =
       ([], .error (PyError.assertionError
         "Message processor has no mining session!")) ∧
     procNone.mining_session =
       .error (PyError.assertionError
         "Message processor has no mining session!")) :=
  ⟨rfl, handlers_refuse_without_session procNone rfl ⟨7⟩ ⟨7, "u", "pw"⟩ ⟨7, 0⟩⟩

/-- C10: on a successful subscribe the `SubscribeResponse` is emitted while
the session state is `SUBSCRIBED` — never while it is `RUNNING` — and only
afterwards does `run()` leave the final state at `RUNNING`. -/
theorem subscribe_response_before_running (p : PoolV1) (s : MiningSessionV1)
    (msg : Subscribe) (h : p.__mining_session = some s)
    (h2 : s.state = States.INIT ∨ s.state = States.AUTHORIZED) :
    ∃ resp p1 s1,
      p.visit_subscribe msg = ([(States.SUBSCRIBED, resp)], .ok p1) ∧
      (∀ q ∈ (p.visit_subscribe msg).1, q.1 ≠ States.RUNNING) ∧
      p1.__mining_session = some s1 ∧ s1.state = States.RUNNING := by
  simp only [PoolV1.visit_subscribe, h]
  rw [if_pos h2]
  refine ⟨_, _, _, rfl, ?_, rfl, rfl⟩
  simp

/-- C10 witness: subscribe from the `AUTHORIZED` sample session. -/
theorem subscribe_response_before_running_witness :
    procAuth.__mining_session = some sessAuth ∧
    (sessAuth.state = States.INIT ∨ sessAuth.state = States.AUTHORIZED) ∧
    ∃ resp p1 s1,
      procAuth.visit_subscribe ⟨3⟩ = ([(States.SUBSCRIBED, resp)], .ok p1) ∧
      (∀ q ∈ (procAuth.visit_subscribe ⟨3⟩).1, q.1 ≠ States.RUNNING) ∧
      p1.__mining_session = some s1 ∧ s1.state = States.RUNNING :=
  ⟨rfl, Or.inr rfl,
   subscribe_response_before_running procAuth sessAuth ⟨3⟩ rfl (Or.inr rfl)⟩

end StratumV1
